import Mathlib

/-!
Verification of the TapTrack embedded attendance controller.

This file gives a shallow embedding of the core of the firmware
(`src/src/main.cpp`, `src/include/AttendanceQueue.h`, `src/include/config.h`,
and the Firebase confirmation bookkeeping in the unnamed source part) and
proves or refutes the frozen specification claims about it.

Modeling conventions:
- machine time (`millis()`) is a `Nat`; the firmware only ever subtracts an
  earlier reading from a later one, so `Nat` subtraction matches the
  unsigned C arithmetic on the executions we consider;
- external collaborators (card reader, RTC, Wi-Fi, Firebase client, user
  database) are oracles: their per-iteration answers are fields of an `Env`
  record and each loop iteration is the function `loopStep : Sys → Env → Sys`;
- things with no effect on the modeled state (LED/buzzer indicators, serial
  logging, the serial command CLI, the mode button) are omitted, matching the
  spec's scope section which excludes them;
- `confirmedOperations` (a `std::map` keyed by sync id in the source) is
  modeled as a `Finset String`, the set of confirmed correlation ids.
-/

namespace TapTrack

-- ===========================================================================
-- config.h constants
-- ===========================================================================

def MAX_QUEUE_SIZE : Nat := 100

def ON_TIME_HOUR : Nat := 9

def LATE_HOUR : Nat := 10

def TAP_COOLDOWN_MS : Nat := 30000

def SYNC_INTERVAL_MS : Nat := 30000

def WIFI_CHECK_INTERVAL_MS : Nat := 60000

def STATE_TIMEOUT_MS : Nat := 10000

def RTC_MIN_YEAR : Nat := 2024

def RTC_MAX_YEAR : Nat := 2030

-- ===========================================================================
-- Data model
-- ===========================================================================

/-- `SystemMode` from config.h. -/
inductive SystemMode
| MODE_AUTO
| MODE_FORCE_ONLINE
| MODE_FORCE_OFFLINE
deriving DecidableEq

/-- `SystemState` from main.cpp.  `STATE_BOOT` models the source's
initialization state (the first enumerator of `SystemState`). -/
inductive SystemState
| STATE_BOOT
| STATE_IDLE
| STATE_PROCESS_CARD
| STATE_UPLOAD_DATA
| STATE_QUEUE_DATA
| STATE_SYNC_QUEUE
deriving DecidableEq

open SystemMode SystemState

/-- `DateTime` as used by `isRTCValid` / `getAttendanceStatus` (fields are
unsigned in the source, hence `Nat`). -/
structure DateTime where
  year : Nat
  month : Nat
  day : Nat
  hour : Nat
  minute : Nat
  second : Nat
deriving DecidableEq

/-- `AttendanceRecord` from AttendanceQueue.h.  `retryCount` is a C `int`,
hence `Int`; `queuedAt` is an `unsigned long`, hence `Nat`. -/
structure AttendanceRecord where
  uid : String
  name : String
  timestamp : String
  attendanceStatus : String
  registrationStatus : String
  syncId : String
  retryCount : Int
  queuedAt : Nat
deriving DecidableEq

-- ===========================================================================
-- AttendanceQueue operations (AttendanceQueue.h); the std::vector is a List
-- ===========================================================================

/-- `AttendanceQueue::enqueue`: refuse when `queue.size() >= MAX_QUEUE_SIZE`,
else append a fresh record (`syncId = ""`, `retryCount = 0`,
`queuedAt = millis()`).  Returns the C++ bool result with the new contents. -/
def enqueue (q : List AttendanceRecord)
    (uid name timestamp attendanceStatus registrationStatus : String)
    (now : Nat) : Bool × List AttendanceRecord :=
  if MAX_QUEUE_SIZE ≤ q.length then (false, q)
  else (true, q ++ [⟨uid, name, timestamp, attendanceStatus,
                    registrationStatus, "", 0, now⟩])

/-- `AttendanceQueue::setSyncId`: set the head record's sync id and bump its
`retryCount` (no-op on an empty queue). -/
def setSyncId (q : List AttendanceRecord) (syncId : String) :
    List AttendanceRecord :=
  match q with
  | [] => []
  | r :: rest => { r with syncId := syncId, retryCount := r.retryCount + 1 } :: rest

/-- `AttendanceQueue::dequeueBySyncId`: erase the first record whose `syncId`
matches; returns whether a record was removed, with the new contents. -/
def dequeueBySyncId (q : List AttendanceRecord) (syncId : String) :
    Bool × List AttendanceRecord :=
  match q with
  | [] => (false, [])
  | r :: rest =>
    if r.syncId = syncId then (true, rest)
    else
      let p := dequeueBySyncId rest syncId
      (p.1, r :: p.2)

/-- `AttendanceQueue::moveToBack`: rotate the head to the tail, but only when
`queue.size() > 1`. -/
def moveToBack (q : List AttendanceRecord) : List AttendanceRecord :=
  match q with
  | [] => []
  | [r] => [r]
  | r :: rest => rest ++ [r]

-- ===========================================================================
-- Persistence (saveToSPIFFS / loadFromSPIFFS): the JSON document is modeled
-- as a list of objects, an object as an association list of typed values.
-- ===========================================================================

/-- A JSON scalar as written by the queue serializer: ArduinoJson stores the
`String` fields as strings, `retryCount` (int) and `queuedAt` (unsigned long)
as numbers of the corresponding C type. -/
inductive JsonVal
| jstr (s : String)
| jint (n : Int)
| jnat (n : Nat)
deriving DecidableEq

/-- `obj[key] | dflt` for a string field. -/
def jsonStr (obj : List (String × JsonVal)) (key : String) (dflt : String) :
    String :=
  match obj.lookup key with
  | some (JsonVal.jstr s) => s
  | _ => dflt

/-- `obj[key] | dflt` for an `int` field. -/
def jsonInt (obj : List (String × JsonVal)) (key : String) (dflt : Int) : Int :=
  match obj.lookup key with
  | some (JsonVal.jint n) => n
  | _ => dflt

/-- `obj[key] | dflt` for an `unsigned long` field. -/
def jsonNat (obj : List (String × JsonVal)) (key : String) (dflt : Nat) : Nat :=
  match obj.lookup key with
  | some (JsonVal.jnat n) => n
  | _ => dflt

/-- One record as written by `AttendanceQueue::saveToSPIFFS`. -/
def saveRecord (r : AttendanceRecord) : List (String × JsonVal) :=
  [("uid", JsonVal.jstr r.uid),
   ("name", JsonVal.jstr r.name),
   ("timestamp", JsonVal.jstr r.timestamp),
   ("attendanceStatus", JsonVal.jstr r.attendanceStatus),
   ("registrationStatus", JsonVal.jstr r.registrationStatus),
   ("syncId", JsonVal.jstr r.syncId),
   ("retryCount", JsonVal.jint r.retryCount),
   ("queuedAt", JsonVal.jnat r.queuedAt)]

/-- One record as read back by `AttendanceQueue::loadFromSPIFFS`, including
the source's per-field defaults. -/
def loadRecord (obj : List (String × JsonVal)) : AttendanceRecord :=
  { uid := jsonStr obj "uid" ""
    name := jsonStr obj "name" ""
    timestamp := jsonStr obj "timestamp" ""
    attendanceStatus := jsonStr obj "attendanceStatus" "present"
    registrationStatus := jsonStr obj "registrationStatus" "registered"
    syncId := jsonStr obj "syncId" ""
    retryCount := jsonInt obj "retryCount" 0
    queuedAt := jsonNat obj "queuedAt" 0 }

/-- `AttendanceQueue::saveToSPIFFS`: the whole queue as one JSON array, in
queue order. -/
def saveToSPIFFS (q : List AttendanceRecord) : List (List (String × JsonVal)) :=
  q.map saveRecord

/-- `AttendanceQueue::loadFromSPIFFS`: rebuild the queue from the JSON array,
in document order. -/
def loadFromSPIFFS (doc : List (List (String × JsonVal))) :
    List AttendanceRecord :=
  doc.map loadRecord

-- ===========================================================================
-- Time and attendance helpers (main.cpp)
-- ===========================================================================

/-- `isRTCValid` from main.cpp. -/
def isRTCValid (t : DateTime) : Bool :=
  decide (RTC_MIN_YEAR ≤ t.year) && decide (t.year ≤ RTC_MAX_YEAR) &&
  decide (1 ≤ t.month) && decide (t.month ≤ 12) &&
  decide (1 ≤ t.day) && decide (t.day ≤ 31) &&
  decide (t.hour ≤ 23) && decide (t.minute ≤ 59) && decide (t.second ≤ 59)

/-- `getAttendanceStatus` from main.cpp: hours below `ON_TIME_HOUR` are
"present", hours at or above `LATE_HOUR` are "late", and the final
fall-through also returns "present". -/
def getAttendanceStatus (t : DateTime) : String :=
  if t.hour < ON_TIME_HOUR then "present"
  else if LATE_HOUR ≤ t.hour then "late"
  else "present"

/-- Zero-padded two-digit field of `formatTimestamp`. -/
def pad2 (n : Nat) : String :=
  if n < 10 then "0" ++ toString n else toString n

/-- Zero-padded four-digit field of `formatTimestamp`. -/
def pad4 (n : Nat) : String :=
  if n < 10 then "000" ++ toString n
  else if n < 100 then "00" ++ toString n
  else if n < 1000 then "0" ++ toString n
  else toString n

/-- `formatTimestamp` from main.cpp (`YYYY-MM-DDTHH:MM:SS.000Z`). -/
def formatTimestamp (t : DateTime) : String :=
  pad4 t.year ++ "-" ++ pad2 t.month ++ "-" ++ pad2 t.day ++ "T" ++
  pad2 t.hour ++ ":" ++ pad2 t.minute ++ ":" ++ pad2 t.second ++ ".000Z"

/-- `isDuplicateTap` from main.cpp, acting on the guard state
(`lastTapUID`, `lastTapTime`, `tapInProgress`).  Returns the suppression
verdict together with the new `lastTapUID` / `lastTapTime` (the guard is
rewritten only on the non-suppressed path, exactly as in the source). -/
def isDuplicateTap (lastTapUID : String) (lastTapTime : Nat)
    (tapInProgress : Bool) (uid : String) (now : Nat) :
    Bool × String × Nat :=
  if lastTapUID = uid ∧ now - lastTapTime < TAP_COOLDOWN_MS then
    (true, lastTapUID, lastTapTime)
  else if tapInProgress = true ∧ lastTapUID = uid then
    (true, lastTapUID, lastTapTime)
  else
    (false, uid, now)

-- ===========================================================================
-- Upload tracker (main.cpp) and Firebase confirmation bookkeeping
-- ===========================================================================

/-- `UploadTracker` from main.cpp. -/
structure UploadTracker where
  syncId : String
  uid : String
  startTime : Nat
  active : Bool
deriving DecidableEq

/-- `UploadTracker::start`. -/
def UploadTracker.start (_t : UploadTracker) (id cardUID : String) (now : Nat) :
    UploadTracker :=
  { syncId := id, uid := cardUID, startTime := now, active := true }

/-- `UploadTracker::clear`. -/
def UploadTracker.clear (t : UploadTracker) : UploadTracker :=
  { t with syncId := "", uid := "", active := false }

/-- `UploadTracker::isTimeout`: active and `millis() - startTime > 10000`. -/
def UploadTracker.isTimeout (t : UploadTracker) (now : Nat) : Bool :=
  t.active && decide (10000 < now - t.startTime)

/-- `isSyncConfirmed` from the Firebase module: membership test on the
confirmed-operations map, erasing the id when found ("clean up after
checking"). -/
def isSyncConfirmed (confirmed : Finset String) (syncId : String) :
    Bool × Finset String :=
  if syncId ∈ confirmed then (true, confirmed.erase syncId)
  else (false, confirmed)

/-- Confirmations delivered by `app.loop()` during an iteration are inserted
into the confirmed-operations map (the `processData` callback). -/
def deliverConfirmations (confirmed : Finset String) (arriving : List String) :
    Finset String :=
  arriving.foldl (fun acc x => insert x acc) confirmed

-- ===========================================================================
-- State machine context and system state (main.cpp)
-- ===========================================================================

/-- `StateContext` from main.cpp. -/
structure StateContext where
  cardUID : String
  userName : String
  timestamp : String
  attendanceStatus : String
  registrationStatus : String
  isRegistered : Bool
  syncId : String
  stateEntryTime : Nat
  syncStartTime : Nat
  uploadRetries : Nat
  fromQueue : Bool
deriving DecidableEq

/-- `StateContext::reset` (sets `stateEntryTime` to the current `millis()`). -/
def StateContext.reset (now : Nat) : StateContext :=
  { cardUID := "", userName := "", timestamp := "", attendanceStatus := ""
    registrationStatus := "", isRegistered := false, syncId := ""
    stateEntryTime := now, syncStartTime := 0, uploadRetries := 0
    fromQueue := false }

/-- The modeled mutable state of main.cpp: the state machine variables, the
queue, the tracker, the tap guard, the card-detect latch and the timers. -/
structure Sys where
  currentState : SystemState
  currentMode : SystemMode
  isOnline : Bool
  ctx : StateContext
  queue : List AttendanceRecord
  uploadTracker : UploadTracker
  lastTapUID : String
  lastTapTime : Nat
  tapInProgress : Bool
  confirmedOperations : Finset String
  cardDetected : Bool
  cardDetectPending : Bool
  cardFirstDetectedAt : Nat
  lastQueueSyncAttempt : Nat
  lastWifiCheck : Nat
deriving DecidableEq

/-- The oracle answers of the external collaborators for one loop iteration. -/
structure Env where
  now : Nat
  cardArrives : Bool
  readUid : String
  time : DateTime
  userName : String
  userRegistered : Bool
  firebaseReady : Bool
  sendSyncId : String
  newConfirmations : List String
  wifiUp : Bool
  reconnectOk : Bool
  loadedQueue : List AttendanceRecord
  loadedMode : SystemMode

-- ===========================================================================
-- Transitions and handlers (main.cpp)
-- ===========================================================================

/-- `transitionTo`: no-op on a self-transition; otherwise switch state, stamp
`stateEntryTime`, and run the entry actions that touch modeled state
(releasing / taking the `tapInProgress` lock). -/
def transitionTo (s : Sys) (newState : SystemState) (now : Nat) : Sys :=
  if s.currentState = newState then s
  else
    let s2 : Sys := { s with currentState := newState
                             ctx := { s.ctx with stateEntryTime := now } }
    match newState with
    | STATE_IDLE => { s2 with tapInProgress := false }
    | STATE_PROCESS_CARD => { s2 with tapInProgress := true }
    | _ => s2

/-- `checkStateTimeout`, the stuck-state watchdog: outside the two resident
states, once more than `STATE_TIMEOUT_MS` has elapsed since state entry, a
hung upload of a live registered record is re-enqueued (result ignored), the
tracker is cleared and the machine is forced to idle. -/
def checkStateTimeout (s : Sys) (now : Nat) : Sys :=
  if s.currentState = STATE_IDLE ∨ s.currentState = STATE_BOOT then s
  else if STATE_TIMEOUT_MS < now - s.ctx.stateEntryTime then
    if (s.currentState = STATE_UPLOAD_DATA ∨ s.currentState = STATE_SYNC_QUEUE)
       ∧ s.ctx.fromQueue = false ∧ s.ctx.isRegistered = true then
      transitionTo
        { s with queue := (enqueue s.queue s.ctx.cardUID s.ctx.userName
                             s.ctx.timestamp s.ctx.attendanceStatus
                             s.ctx.registrationStatus now).2
                 uploadTracker := s.uploadTracker.clear } STATE_IDLE now
    else
      transitionTo { s with uploadTracker := s.uploadTracker.clear } STATE_IDLE now
  else s

/-- `checkAndReconnectWiFi`: force-offline pins the flag to false; otherwise
the flag follows connectivity, with a reconnect attempt in force-online. -/
def checkAndReconnectWiFi (s : Sys) (e : Env) : Sys :=
  if s.currentMode = MODE_FORCE_OFFLINE then { s with isOnline := false }
  else if e.wifiUp = true then { s with isOnline := true }
  else if s.currentMode = MODE_FORCE_ONLINE then { s with isOnline := e.reconnectOk }
  else { s with isOnline := false }

/-- The interval-gated Wi-Fi recheck at the top of `handleIdle`. -/
def idleWifiCheck (s : Sys) (e : Env) : Sys :=
  if s.currentMode ≠ MODE_FORCE_OFFLINE
     ∧ WIFI_CHECK_INTERVAL_MS < e.now - s.lastWifiCheck then
    checkAndReconnectWiFi { s with lastWifiCheck := e.now } e
  else s

/-- The `app.loop()` servicing that lands asynchronous confirmations. -/
def serviceConfirmations (s : Sys) (e : Env) : Sys :=
  { s with confirmedOperations :=
      deliverConfirmations s.confirmedOperations e.newConfirmations }

/-- The background portion of `handleIdle`: the interval-gated Wi-Fi check
and the `app.loop()` servicing that lands asynchronous confirmations. -/
def idleBackground (s : Sys) (e : Env) : Sys :=
  serviceConfirmations (idleWifiCheck s e) e

/-- The completed-upload check of `handleIdle`: when the tracker is active,
poll `isSyncConfirmed`; on confirmation remove the queue record by sync id
(only when the head's uid matches the tracked uid) and clear the tracker; on
timeout just clear the tracker. -/
def idleConfirmStep (s : Sys) (now : Nat) : Sys :=
  if s.uploadTracker.active = true then
    if (isSyncConfirmed s.confirmedOperations s.uploadTracker.syncId).1 = true then
      { s with queue :=
                 match s.queue with
                 | [] => s.queue
                 | r :: _ =>
                   if r.uid = s.uploadTracker.uid then
                     (dequeueBySyncId s.queue s.uploadTracker.syncId).2
                   else s.queue
               confirmedOperations :=
                 (isSyncConfirmed s.confirmedOperations s.uploadTracker.syncId).2
               uploadTracker := s.uploadTracker.clear }
    else if s.uploadTracker.isTimeout now = true then
      { s with uploadTracker := s.uploadTracker.clear }
    else s
  else s

/-- The card-detect portion of `handleIdle`: a detected card (with no upload
in flight) must stay present through a 20 ms stabilization window before the
machine moves to card processing. -/
def idleCard (s : Sys) (e : Env) : Sys :=
  if s.cardDetected = true ∧ s.uploadTracker.active = false then
    if s.cardDetectPending = false then
      -- the pending flag and window start are first set to `e.now`; with the
      -- same `now` the 20 ms window check `now - cardFirstDetectedAt >= 20`
      -- is then performed against that fresh start
      if 20 ≤ e.now - e.now then
        transitionTo { s with cardDetectPending := false
                              cardFirstDetectedAt := e.now }
          STATE_PROCESS_CARD e.now
      else { s with cardDetectPending := true, cardFirstDetectedAt := e.now }
    else
      if 20 ≤ e.now - s.cardFirstDetectedAt then
        transitionTo { s with cardDetectPending := false } STATE_PROCESS_CARD e.now
      else s
  else { s with cardDetectPending := false }

/-- The queue-drain portion of `handleIdle`: when online with a non-empty
queue, no upload in flight, not force-offline and the sync interval elapsed,
stamp the attempt time and, if the head record has `retryCount <= 5`, copy it
into the context and move to the queue-sync state; otherwise fall through to
the card check. -/
def idleSyncCard (s : Sys) (e : Env) : Sys :=
  if s.isOnline = true ∧ s.queue ≠ [] ∧ s.uploadTracker.active = false
     ∧ s.currentMode ≠ MODE_FORCE_OFFLINE
     ∧ SYNC_INTERVAL_MS < e.now - s.lastQueueSyncAttempt then
    match s.queue with
    | [] => idleCard { s with lastQueueSyncAttempt := e.now } e
    | record :: _ =>
      if record.retryCount ≤ 5 then
        transitionTo
          { s with lastQueueSyncAttempt := e.now
                   ctx := { StateContext.reset e.now with
                            cardUID := record.uid, userName := record.name
                            timestamp := record.timestamp
                            attendanceStatus := record.attendanceStatus
                            registrationStatus := record.registrationStatus
                            isRegistered := true, fromQueue := true } }
          STATE_SYNC_QUEUE e.now
      else idleCard { s with lastQueueSyncAttempt := e.now } e
  else idleCard s e

/-- `handleIdle`: background servicing, then the completed-upload check, then
queue drain and card detection. -/
def handleIdle (s : Sys) (e : Env) : Sys :=
  idleSyncCard (idleConfirmStep (idleBackground s e) e.now) e

/-- The routing decision at the end of `handleProcessCard`: online registered
taps go to the upload state; online unregistered identities are reported to
the pending-registration channel (fire-and-forget) and return to idle;
offline registered taps go to the queue state; offline unregistered taps are
dropped with an error indication. -/
def processCardRoute (s : Sys) (e : Env) : Sys :=
  if s.isOnline = true ∧ s.currentMode ≠ MODE_FORCE_OFFLINE then
    if e.userRegistered = true then transitionTo s STATE_UPLOAD_DATA e.now
    else transitionTo s STATE_IDLE e.now
  else
    if e.userRegistered = true then transitionTo s STATE_QUEUE_DATA e.now
    else transitionTo s STATE_IDLE e.now

/-- `handleProcessCard`: a failed read or an invalid clock aborts to idle; a
suppressed duplicate returns silently; otherwise the guard is updated, the
context is populated from the read, the clock and the user database, and
routing picks the upload or queue path. -/
def handleProcessCard (s : Sys) (e : Env) : Sys :=
  if e.readUid = "" then
    transitionTo { s with cardDetected := false } STATE_IDLE e.now
  else if isRTCValid e.time = false then
    transitionTo { s with cardDetected := false } STATE_IDLE e.now
  else if (isDuplicateTap s.lastTapUID s.lastTapTime s.tapInProgress
             e.readUid e.now).1 = true then
    transitionTo
      { s with lastTapUID := (isDuplicateTap s.lastTapUID s.lastTapTime
                               s.tapInProgress e.readUid e.now).2.1
               lastTapTime := (isDuplicateTap s.lastTapUID s.lastTapTime
                                s.tapInProgress e.readUid e.now).2.2
               cardDetected := false } STATE_IDLE e.now
  else
    processCardRoute
      { s with lastTapUID := (isDuplicateTap s.lastTapUID s.lastTapTime
                               s.tapInProgress e.readUid e.now).2.1
               lastTapTime := (isDuplicateTap s.lastTapUID s.lastTapTime
                                s.tapInProgress e.readUid e.now).2.2
               ctx := { StateContext.reset e.now with
                        cardUID := e.readUid
                        timestamp := formatTimestamp e.time
                        attendanceStatus := getAttendanceStatus e.time
                        fromQueue := false
                        userName := e.userName
                        isRegistered := e.userRegistered
                        registrationStatus :=
                          if e.userRegistered = true then "registered"
                          else "unregistered" }
               cardDetected := false } e

/-- `handleUploadData`: not ready falls through to queueing; a non-empty sync
id starts the tracker and returns to idle at once; an immediate rejection
bumps the bounded local retry counter, falling through to queueing past 2. -/
def handleUploadData (s : Sys) (e : Env) : Sys :=
  if s.isOnline = false ∨ e.firebaseReady = false then
    transitionTo s STATE_QUEUE_DATA e.now
  else if e.sendSyncId ≠ "" then
    transitionTo
      { s with uploadTracker := s.uploadTracker.start e.sendSyncId s.ctx.cardUID e.now
               ctx := { s.ctx with syncId := e.sendSyncId, syncStartTime := e.now } }
      STATE_IDLE e.now
  else if 2 < s.ctx.uploadRetries + 1 then
    transitionTo
      { s with ctx := { s.ctx with uploadRetries := s.ctx.uploadRetries + 1 } }
      STATE_QUEUE_DATA e.now
  else
    { s with ctx := { s.ctx with uploadRetries := s.ctx.uploadRetries + 1 } }

/-- `handleQueueData`: at capacity, report the queue-full error and return to
idle (the event is dropped); otherwise enqueue and return to idle. -/
def handleQueueData (s : Sys) (e : Env) : Sys :=
  if MAX_QUEUE_SIZE ≤ s.queue.length then
    transitionTo s STATE_IDLE e.now
  else
    transitionTo
      { s with queue := (enqueue s.queue s.ctx.cardUID s.ctx.userName
                           s.ctx.timestamp s.ctx.attendanceStatus
                           s.ctx.registrationStatus e.now).2 }
      STATE_IDLE e.now

/-- `handleSyncQueue`: not ready rotates the head to the back and returns to
idle; a successful send starts the tracker and stamps the head's sync id
(which also bumps its retry count); an immediate rejection bumps the head's
retry count and rotates it to the back. -/
def handleSyncQueue (s : Sys) (e : Env) : Sys :=
  if s.isOnline = false ∨ e.firebaseReady = false then
    transitionTo { s with queue := moveToBack s.queue } STATE_IDLE e.now
  else if e.sendSyncId ≠ "" then
    transitionTo
      { s with uploadTracker := s.uploadTracker.start e.sendSyncId s.ctx.cardUID e.now
               queue := setSyncId s.queue e.sendSyncId } STATE_IDLE e.now
  else
    transitionTo
      { s with queue := moveToBack
                 (match s.queue with
                  | [] => []
                  | r :: rest => { r with retryCount := r.retryCount + 1 } :: rest) }
      STATE_IDLE e.now

/-- The initialization handler (`handleInitialize` in the source): load the
persisted queue and mode, derive the online flag from connectivity and mode,
clear the card latch and move to idle. -/
def handleBoot (s : Sys) (e : Env) : Sys :=
  transitionTo
    { s with queue := e.loadedQueue
             currentMode := e.loadedMode
             isOnline := e.wifiUp && decide (e.loadedMode ≠ MODE_FORCE_OFFLINE)
             cardDetected := false }
    STATE_IDLE e.now

/-- The state-dispatch switch of `loop()`. -/
def runState (s : Sys) (e : Env) : Sys :=
  match s.currentState with
  | STATE_BOOT => handleBoot s e
  | STATE_IDLE => handleIdle s e
  | STATE_PROCESS_CARD => handleProcessCard s e
  | STATE_UPLOAD_DATA => handleUploadData s e
  | STATE_QUEUE_DATA => handleQueueData s e
  | STATE_SYNC_QUEUE => handleSyncQueue s e

/-- One iteration of `loop()`: latch any interrupt-reported card, run the
stuck-state watchdog, then dispatch to the current state's handler. -/
def loopStep (s : Sys) (e : Env) : Sys :=
  runState (checkStateTimeout
    { s with cardDetected := s.cardDetected || e.cardArrives } e.now) e

/-- The state established by `setup()` and the C++ static initializers. -/
def initialSys : Sys :=
  { currentState := STATE_BOOT
    currentMode := MODE_AUTO
    isOnline := false
    ctx := StateContext.reset 0
    queue := []
    uploadTracker := ⟨"", "", 0, false⟩
    lastTapUID := ""
    lastTapTime := 0
    tapInProgress := false
    confirmedOperations := ∅
    cardDetected := false
    cardDetectPending := false
    cardFirstDetectedAt := 0
    lastQueueSyncAttempt := 0
    lastWifiCheck := 0 }

/-- States reachable from power-on under some sequence of oracle answers. -/
inductive Reachable : Sys → Prop
| init : Reachable initialSys
| step (e : Env) {s : Sys} : Reachable s → Reachable (loopStep s e)

-- ===========================================================================
-- Apparatus for stating the claims
-- ===========================================================================

/-- The argument bundle of one `AttendanceQueue::enqueue` call. -/
structure EnqueueArgs where
  uid : String
  name : String
  timestamp : String
  attendanceStatus : String
  registrationStatus : String
  now : Nat
deriving DecidableEq

/-- `enqueue` applied to one argument bundle. -/
def enqueueArgs (q : List AttendanceRecord) (a : EnqueueArgs) :
    Bool × List AttendanceRecord :=
  enqueue q a.uid a.name a.timestamp a.attendanceStatus a.registrationStatus a.now

/-- An arbitrary sequence of enqueue operations, applied in order. -/
def applyEnqueues (q : List AttendanceRecord) (ops : List EnqueueArgs) :
    List AttendanceRecord :=
  ops.foldl (fun acc a => (enqueueArgs acc a).2) q

/-- The transient (watchdog-supervised) states: everything outside the two
resident states. -/
def busy (st : SystemState) : Prop :=
  st = STATE_PROCESS_CARD ∨ st = STATE_UPLOAD_DATA ∨
  st = STATE_QUEUE_DATA ∨ st = STATE_SYNC_QUEUE

/-- Serialization invariant: in every transient state the upload tracker is
inactive (so the tracker is only ever started from an inactive tracker). -/
def TrackerInv (s : Sys) : Prop :=
  busy s.currentState → s.uploadTracker.active = false

-- ===========================================================================
-- Concrete executions used by counterexamples and witnesses
-- ===========================================================================

/-- A plausible clock reading (8:00, before the on-time hour). -/
def goodTime : DateTime := ⟨2025, 6, 2, 8, 0, 0⟩

/-- Default oracle answers; each run overrides the fields it needs. -/
def baseEnv : Env :=
  { now := 0, cardArrives := false, readUid := "", time := goodTime
    userName := "", userRegistered := false, firebaseReady := false
    sendSyncId := "", newConfirmations := [], wifiUp := true
    reconnectOk := false, loadedQueue := [], loadedMode := MODE_AUTO }

-- Run A (claim C2): boot with a full persisted queue, process a live
-- registered tap online, let the upload hang past the watchdog timeout.

def c2QRec : AttendanceRecord :=
  ⟨"Q0", "QN", "QT", "present", "registered", "", 0, 0⟩

def c2FullQ : List AttendanceRecord := List.replicate 100 c2QRec

def c2e1 : Env := { baseEnv with now := 10, loadedQueue := c2FullQ }

def c2e2 : Env := { baseEnv with now := 100, cardArrives := true }

def c2e3 : Env := { baseEnv with now := 120 }

def c2e4 : Env :=
  { baseEnv with now := 121, readUid := "AB12", userName := "Alice"
                 userRegistered := true }

def c2e5 : Env := { baseEnv with now := 10122 }

def c2s1 : Sys := loopStep initialSys c2e1

def c2s2 : Sys := loopStep c2s1 c2e2

def c2s3 : Sys := loopStep c2s2 c2e3

def c2s4 : Sys := loopStep c2s3 c2e4

def c2s5 : Sys := loopStep c2s4 c2e5

-- Run B (claim C3): boot with an empty queue, upload a live tap (tracker
-- becomes active), then a second card arrives while the upload is in flight.

def c3e1 : Env := { baseEnv with now := 10 }

def c3e2 : Env := { baseEnv with now := 100, cardArrives := true }

def c3e3 : Env := { baseEnv with now := 120 }

def c3e4 : Env :=
  { baseEnv with now := 121, readUid := "AB12", userName := "Alice"
                 userRegistered := true }

def c3e5 : Env :=
  { baseEnv with now := 130, firebaseReady := true, sendSyncId := "S1" }

def c3e6 : Env :=
  { baseEnv with now := 200, cardArrives := true, readUid := "CD34" }

def c3s1 : Sys := loopStep initialSys c3e1

def c3s2 : Sys := loopStep c3s1 c3e2

def c3s3 : Sys := loopStep c3s2 c3e3

def c3s4 : Sys := loopStep c3s3 c3e4

def c3s5 : Sys := loopStep c3s4 c3e5

def c3s6 : Sys := loopStep c3s5 c3e6

-- Run C (claim C5): boot with a persisted record whose retryCount is 6 and
-- let a drain interval elapse.

def c5r6 : AttendanceRecord :=
  ⟨"R6", "Bob", "T6", "present", "registered", "", 6, 0⟩

def c5e1 : Env := { baseEnv with now := 10, loadedQueue := [c5r6] }

def c5e2 : Env := { baseEnv with now := 40000 }

def c5s1 : Sys := loopStep initialSys c5e1

def c5s2 : Sys := loopStep c5s1 c5e2

-- Run D (claim C6): boot with two records, drain the head successfully
-- (tracker "S1"), then let the tracked upload time out unconfirmed.

def c6A : AttendanceRecord :=
  ⟨"A1", "Alice", "TA", "present", "registered", "", 0, 0⟩

def c6B : AttendanceRecord :=
  ⟨"B1", "Bill", "TB", "present", "registered", "", 0, 0⟩

/-- `c6A` after the send attempt stamped sync id "S1" on it. -/
def c6A2 : AttendanceRecord :=
  ⟨"A1", "Alice", "TA", "present", "registered", "S1", 1, 0⟩

def c6e1 : Env := { baseEnv with now := 10, loadedQueue := [c6A, c6B] }

def c6e2 : Env := { baseEnv with now := 40000 }

def c6e3 : Env :=
  { baseEnv with now := 40010, firebaseReady := true, sendSyncId := "S1" }

def c6e4 : Env := { baseEnv with now := 50011 }

def c6s1 : Sys := loopStep initialSys c6e1

def c6s2 : Sys := loopStep c6s1 c6e2

def c6s3 : Sys := loopStep c6s2 c6e3

def c6s4 : Sys := loopStep c6s3 c6e4

-- Run E (claim C7): offline boot, one successful tap (guard claims "AB12"
-- at t=121), then a second card whose read fails at t=221.

def c7e1 : Env := { baseEnv with now := 10, wifiUp := false }

def c7e2 : Env := { baseEnv with now := 100, cardArrives := true }

def c7e3 : Env := { baseEnv with now := 120 }

def c7e4 : Env :=
  { baseEnv with now := 121, readUid := "AB12", userName := "Alice"
                 userRegistered := true }

def c7e5 : Env := { baseEnv with now := 122 }

def c7e6 : Env := { baseEnv with now := 200, cardArrives := true }

def c7e7 : Env := { baseEnv with now := 220 }

def c7e8 : Env := { baseEnv with now := 221, readUid := "" }

def c7s1 : Sys := loopStep initialSys c7e1

def c7s2 : Sys := loopStep c7s1 c7e2

def c7s3 : Sys := loopStep c7s2 c7e3

def c7s4 : Sys := loopStep c7s3 c7e4

def c7s5 : Sys := loopStep c7s4 c7e5

def c7s6 : Sys := loopStep c7s5 c7e6

def c7s7 : Sys := loopStep c7s6 c7e7

def c7s8 : Sys := loopStep c7s7 c7e8

-- Concrete instantiation points for the witnesses.

/-- One concrete enqueue argument bundle. -/
def c1Args : EnqueueArgs := ⟨"AB12", "Alice", "T", "present", "registered", 5⟩

/-- A hung live-upload state: upload state entered at t=0 for a registered
live record, empty queue. -/
def cwUpload : Sys :=
  { initialSys with
      currentState := STATE_UPLOAD_DATA
      isOnline := true
      ctx := { StateContext.reset 0 with
               cardUID := "AB12", userName := "Alice", timestamp := "T"
               attendanceStatus := "present", registrationStatus := "registered"
               isRegistered := true, fromQueue := false } }

/-- A queue-sync state about to suffer an immediate send rejection. -/
def cwSync : Sys :=
  { initialSys with
      currentState := STATE_SYNC_QUEUE
      isOnline := true
      queue := [c6A, c6B] }

/-- Oracle answers for the rejected queue-drain send. -/
def cwSyncEnv : Env :=
  { baseEnv with now := 50, firebaseReady := true, sendSyncId := "" }

/-- An idle state with an active tracker ("S1") whose confirmation has
already arrived, and whose record sits at the head of the queue. -/
def c4S : Sys :=
  { initialSys with
      uploadTracker := ⟨"S1", "A1", 0, true⟩
      queue := [c6A2]
      confirmedOperations := {"S1"} }

/-- Oracle answers for an idle iteration while an upload is in flight: a
second card arrives, nothing is confirmed. -/
def cwIdleEnv : Env := { baseEnv with now := 5000, cardArrives := true }

/-- Oracle answers for a successful card read of a fresh identifier. -/
def cwReadEnv : Env := { baseEnv with now := 221, readUid := "EF56" }

-- ===========================================================================
-- Helper lemmas: transitionTo touches only currentState, stateEntryTime and
-- the tapInProgress lock
-- ===========================================================================

theorem transitionTo_currentState (s : Sys) (st : SystemState) (now : Nat) :
    (transitionTo s st now).currentState = st := by
  unfold transitionTo
  split
  · next h => exact h
  · cases st <;> rfl

theorem transitionTo_queue (s : Sys) (st : SystemState) (now : Nat) :
    (transitionTo s st now).queue = s.queue := by
  unfold transitionTo
  split
  · rfl
  · cases st <;> rfl

theorem transitionTo_uploadTracker (s : Sys) (st : SystemState) (now : Nat) :
    (transitionTo s st now).uploadTracker = s.uploadTracker := by
  unfold transitionTo
  split
  · rfl
  · cases st <;> rfl

theorem transitionTo_lastTapUID (s : Sys) (st : SystemState) (now : Nat) :
    (transitionTo s st now).lastTapUID = s.lastTapUID := by
  unfold transitionTo
  split
  · rfl
  · cases st <;> rfl

theorem transitionTo_lastTapTime (s : Sys) (st : SystemState) (now : Nat) :
    (transitionTo s st now).lastTapTime = s.lastTapTime := by
  unfold transitionTo
  split
  · rfl
  · cases st <;> rfl

theorem transitionTo_cardDetected (s : Sys) (st : SystemState) (now : Nat) :
    (transitionTo s st now).cardDetected = s.cardDetected := by
  unfold transitionTo
  split
  · rfl
  · cases st <;> rfl

-- ===========================================================================
-- Helper lemmas: queue operations
-- ===========================================================================

theorem moveToBack_cons (a : AttendanceRecord) (l : List AttendanceRecord) :
    moveToBack (a :: l) = l ++ [a] := by
  cases l <;> rfl

theorem dequeueBySyncId_length (q : List AttendanceRecord) (id : String) :
    q.length - 1 ≤ (dequeueBySyncId q id).2.length := by
  induction q with
  | nil => simp [dequeueBySyncId]
  | cons r rest ih =>
    unfold dequeueBySyncId
    split
    · simp
    · simpa using Nat.le_trans ih (by simp)

theorem idleConfirmStep_inactive (s : Sys) (now : Nat)
    (h : s.uploadTracker.active = false) :
    idleConfirmStep s now = s := by
  unfold idleConfirmStep
  rw [if_neg (by simp [h])]

theorem isDuplicateTap_false (a : String) (b : Nat) (c : Bool) (uid : String)
    (now : Nat) (h : (isDuplicateTap a b c uid now).1 = false) :
    (isDuplicateTap a b c uid now).2 = (uid, now) := by
  unfold isDuplicateTap at h ⊢
  split at h
  · exact absurd h (by simp)
  next h1 =>
    split at h
    · exact absurd h (by simp)
    next h2 => rw [if_neg h1, if_neg h2]

-- ===========================================================================
-- Helper lemmas: the idle sub-steps
-- ===========================================================================

theorem idleBackground_fields (s : Sys) (e : Env) :
    (idleBackground s e).currentState = s.currentState
    ∧ (idleBackground s e).uploadTracker = s.uploadTracker
    ∧ (idleBackground s e).queue = s.queue
    ∧ (idleBackground s e).cardDetected = s.cardDetected
    ∧ (idleBackground s e).cardDetectPending = s.cardDetectPending
    ∧ (idleBackground s e).lastQueueSyncAttempt = s.lastQueueSyncAttempt
    ∧ (idleBackground s e).lastTapUID = s.lastTapUID
    ∧ (idleBackground s e).lastTapTime = s.lastTapTime
    ∧ (idleBackground s e).currentMode = s.currentMode := by
  unfold idleBackground serviceConfirmations idleWifiCheck checkAndReconnectWiFi
  repeat' split
  all_goals exact ⟨rfl, rfl, rfl, rfl, rfl, rfl, rfl, rfl, rfl⟩

theorem idleBackground_confirmed (s : Sys) (e : Env) :
    (idleBackground s e).confirmedOperations =
      deliverConfirmations s.confirmedOperations e.newConfirmations := by
  unfold idleBackground serviceConfirmations idleWifiCheck checkAndReconnectWiFi
  repeat' split
  all_goals rfl

theorem idleConfirmStep_currentState (s : Sys) (now : Nat) :
    (idleConfirmStep s now).currentState = s.currentState := by
  unfold idleConfirmStep
  repeat' split
  all_goals rfl

theorem idleConfirmStep_tracker (s : Sys) (now : Nat) :
    (idleConfirmStep s now).uploadTracker = s.uploadTracker
    ∨ (idleConfirmStep s now).uploadTracker.active = false := by
  unfold idleConfirmStep
  split
  · split
    · right; rfl
    · split
      · right; rfl
      · left; rfl
  · left; rfl

theorem idleConfirmStep_cardDetected (s : Sys) (now : Nat) :
    (idleConfirmStep s now).cardDetected = s.cardDetected := by
  unfold idleConfirmStep
  repeat' split
  all_goals rfl

theorem idleCard_uploadTracker (s : Sys) (e : Env) :
    (idleCard s e).uploadTracker = s.uploadTracker := by
  unfold idleCard
  repeat' split
  all_goals simp [transitionTo_uploadTracker]

theorem idleCard_queue (s : Sys) (e : Env) :
    (idleCard s e).queue = s.queue := by
  unfold idleCard
  repeat' split
  all_goals simp [transitionTo_queue]

theorem idleCard_state (s : Sys) (e : Env) :
    (idleCard s e).currentState = s.currentState
    ∨ s.uploadTracker.active = false := by
  unfold idleCard
  split
  · next h => exact Or.inr h.2
  · left; rfl

theorem idleCard_state_cases (s : Sys) (e : Env) :
    (idleCard s e).currentState = s.currentState
    ∨ (idleCard s e).currentState = STATE_PROCESS_CARD := by
  unfold idleCard
  repeat' split
  all_goals simp [transitionTo_currentState]

theorem idleSyncCard_uploadTracker (s : Sys) (e : Env) :
    (idleSyncCard s e).uploadTracker = s.uploadTracker := by
  unfold idleSyncCard
  split
  · split
    · rw [idleCard_uploadTracker]
    · split
      · simp [transitionTo_uploadTracker]
      · rw [idleCard_uploadTracker]
  · rw [idleCard_uploadTracker]

theorem idleSyncCard_queue (s : Sys) (e : Env) :
    (idleSyncCard s e).queue = s.queue := by
  unfold idleSyncCard
  split
  · split
    · rw [idleCard_queue]
    · split
      · simp [transitionTo_queue]
      · rw [idleCard_queue]
  · rw [idleCard_queue]

theorem idleSyncCard_state (s : Sys) (e : Env) :
    (idleSyncCard s e).currentState = s.currentState
    ∨ s.uploadTracker.active = false := by
  unfold idleSyncCard
  split
  · next h => exact Or.inr h.2.2.1
  · exact idleCard_state s e

theorem handleIdle_tracker (s : Sys) (e : Env) :
    (handleIdle s e).uploadTracker = s.uploadTracker
    ∨ (handleIdle s e).uploadTracker.active = false := by
  unfold handleIdle
  rw [idleSyncCard_uploadTracker]
  rcases idleConfirmStep_tracker (idleBackground s e) e.now with h | h
  · rw [h, (idleBackground_fields s e).2.1]
    exact Or.inl rfl
  · exact Or.inr h

theorem handleIdle_inv (s : Sys) (e : Env) (hs : s.currentState = STATE_IDLE) :
    TrackerInv (handleIdle s e) := by
  intro hb
  unfold handleIdle at hb ⊢
  rcases idleSyncCard_state (idleConfirmStep (idleBackground s e) e.now) e with h | h
  · rw [h, idleConfirmStep_currentState, (idleBackground_fields s e).1, hs] at hb
    exact absurd hb (by simp [busy])
  · rw [idleSyncCard_uploadTracker]
    exact h

-- ===========================================================================
-- Helper lemmas: the other handlers and the watchdog
-- ===========================================================================

theorem handleBoot_state (s : Sys) (e : Env) :
    (handleBoot s e).currentState = STATE_IDLE := by
  unfold handleBoot
  rw [transitionTo_currentState]

theorem handleBoot_tracker (s : Sys) (e : Env) :
    (handleBoot s e).uploadTracker = s.uploadTracker := by
  unfold handleBoot
  rw [transitionTo_uploadTracker]

theorem handleSyncQueue_state (s : Sys) (e : Env) :
    (handleSyncQueue s e).currentState = STATE_IDLE := by
  unfold handleSyncQueue
  repeat' split
  all_goals rw [transitionTo_currentState]

theorem handleQueueData_state (s : Sys) (e : Env) :
    (handleQueueData s e).currentState = STATE_IDLE := by
  unfold handleQueueData
  repeat' split
  all_goals rw [transitionTo_currentState]

theorem handleQueueData_tracker (s : Sys) (e : Env) :
    (handleQueueData s e).uploadTracker = s.uploadTracker := by
  unfold handleQueueData
  repeat' split
  all_goals simp [transitionTo_uploadTracker]

theorem processCardRoute_tracker (s : Sys) (e : Env) :
    (processCardRoute s e).uploadTracker = s.uploadTracker := by
  unfold processCardRoute
  repeat' split
  all_goals simp [transitionTo_uploadTracker]

theorem handleProcessCard_tracker (s : Sys) (e : Env) :
    (handleProcessCard s e).uploadTracker = s.uploadTracker := by
  unfold handleProcessCard
  repeat' split
  all_goals simp [transitionTo_uploadTracker, processCardRoute_tracker]

theorem handleUploadData_cases (s : Sys) (e : Env) :
    (handleUploadData s e).uploadTracker = s.uploadTracker
    ∨ (handleUploadData s e).currentState = STATE_IDLE := by
  unfold handleUploadData
  split
  · left; simp [transitionTo_uploadTracker]
  · split
    · right; rw [transitionTo_currentState]
    · split
      · left; simp [transitionTo_uploadTracker]
      · left; rfl

theorem checkStateTimeout_cases (s : Sys) (now : Nat) :
    checkStateTimeout s now = s
    ∨ ((checkStateTimeout s now).currentState = STATE_IDLE
       ∧ (checkStateTimeout s now).uploadTracker.active = false) := by
  unfold checkStateTimeout
  split
  · left; rfl
  · split
    · right
      constructor
      · split <;> rw [transitionTo_currentState]
      · split <;> (rw [transitionTo_uploadTracker]; rfl)
    · left; rfl

-- ===========================================================================
-- The serialization invariant holds in every reachable state
-- ===========================================================================

theorem runState_inv (s : Sys) (e : Env) (h : TrackerInv s) :
    TrackerInv (runState s e) := by
  unfold runState
  split
  · intro hb
    rw [handleBoot_state] at hb
    exact absurd hb (by simp [busy])
  · next heq => exact handleIdle_inv s e heq
  · next heq =>
    intro hb
    rw [handleProcessCard_tracker]
    exact h (Or.inl heq)
  · next heq =>
    rcases handleUploadData_cases s e with hc | hc
    · intro hb
      rw [hc]
      exact h (Or.inr (Or.inl heq))
    · intro hb
      rw [hc] at hb
      exact absurd hb (by simp [busy])
  · next heq =>
    intro hb
    rw [handleQueueData_tracker]
    exact h (Or.inr (Or.inr (Or.inl heq)))
  · intro hb
    rw [handleSyncQueue_state] at hb
    exact absurd hb (by simp [busy])

theorem trackerInv_step (s : Sys) (e : Env) (h : TrackerInv s) :
    TrackerInv (loopStep s e) := by
  unfold loopStep
  rcases checkStateTimeout_cases
      { s with cardDetected := s.cardDetected || e.cardArrives } e.now with
    hc | ⟨h1, h2⟩
  · rw [hc]
    exact runState_inv _ e h
  · exact runState_inv _ e (fun _ => h2)

theorem reachable_trackerInv (s : Sys) (h : Reachable s) : TrackerInv s := by
  induction h with
  | init => intro hb; exact absurd hb (by simp [busy, initialSys])
  | step e hs ih => exact trackerInv_step _ e ih

-- ===========================================================================
-- Further helper lemmas about idle iterations
-- ===========================================================================

theorem checkStateTimeout_idle (s : Sys) (now : Nat)
    (h : s.currentState = STATE_IDLE) : checkStateTimeout s now = s := by
  unfold checkStateTimeout
  rw [if_pos (Or.inl h)]

theorem runState_idle (s : Sys) (e : Env) (h : s.currentState = STATE_IDLE) :
    runState s e = handleIdle s e := by
  unfold runState
  split <;> simp_all

theorem idleConfirmStep_still_active (t : Sys) (now : Nat)
    (ha : t.uploadTracker.active = true)
    (hnc : t.uploadTracker.syncId ∉ t.confirmedOperations)
    (hnt : now - t.uploadTracker.startTime ≤ 10000) :
    idleConfirmStep t now = t := by
  unfold idleConfirmStep
  rw [if_pos ha,
    if_neg (by unfold isSyncConfirmed; rw [if_neg hnc]; simp),
    if_neg (by unfold UploadTracker.isTimeout; simp; omega)]

theorem idleSyncCard_tracker_active (t : Sys) (e : Env)
    (ha : t.uploadTracker.active = true) :
    idleSyncCard t e = { t with cardDetectPending := false } := by
  unfold idleSyncCard
  rw [if_neg (by simp [ha])]
  unfold idleCard
  rw [if_neg (by simp [ha])]

theorem processCardRoute_lastTapUID (s : Sys) (e : Env) :
    (processCardRoute s e).lastTapUID = s.lastTapUID := by
  unfold processCardRoute
  repeat' split
  all_goals simp [transitionTo_lastTapUID]

theorem processCardRoute_lastTapTime (s : Sys) (e : Env) :
    (processCardRoute s e).lastTapTime = s.lastTapTime := by
  unfold processCardRoute
  repeat' split
  all_goals simp [transitionTo_lastTapTime]

theorem idleSyncCard_highRetry (t : Sys) (e : Env) (r : AttendanceRecord)
    (hh : t.queue.head? = some r) (hr : 5 < r.retryCount) :
    (idleSyncCard t e).queue = t.queue
    ∧ ((idleSyncCard t e).currentState = t.currentState
       ∨ (idleSyncCard t e).currentState = STATE_PROCESS_CARD) := by
  unfold idleSyncCard
  split
  · split
    · exact ⟨by rw [idleCard_queue], idleCard_state_cases _ e⟩
    · next rec rest heq =>
      have hrec : rec = r := by
        rw [heq] at hh
        simpa using hh
      split
      · next hle => exact absurd hle (by rw [hrec]; omega)
      · exact ⟨by rw [idleCard_queue], idleCard_state_cases _ e⟩
  · exact ⟨by rw [idleCard_queue], idleCard_state_cases _ e⟩

-- ===========================================================================
-- Claim C1
-- ===========================================================================

/-- C1: for every sequence of enqueue operations starting from a queue within
capacity, the queue size never exceeds MAX_QUEUE_SIZE (100); moreover an
enqueue attempted on a queue already holding MAX_QUEUE_SIZE records returns
failure and leaves the queue contents unchanged. -/
theorem c1_queue_bounded (q : List AttendanceRecord) (ops : List EnqueueArgs)
    (h : q.length ≤ MAX_QUEUE_SIZE) :
    (applyEnqueues q ops).length ≤ MAX_QUEUE_SIZE
    ∧ (∀ q2 : List AttendanceRecord, ∀ a : EnqueueArgs,
        MAX_QUEUE_SIZE ≤ q2.length → enqueueArgs q2 a = (false, q2)) := by
  constructor
  · induction ops generalizing q with
    | nil => simpa [applyEnqueues] using h
    | cons a rest ih =>
      have hstep : ((enqueueArgs q a).2).length ≤ MAX_QUEUE_SIZE := by
        unfold enqueueArgs enqueue
        split
        · simpa using h
        · next hfull =>
          simp only [MAX_QUEUE_SIZE, not_le] at hfull
          simp [MAX_QUEUE_SIZE]
          omega
      simpa [applyEnqueues, List.foldl_cons] using ih _ hstep
  · intro q2 a hfull
    unfold enqueueArgs enqueue
    rw [if_pos hfull]

/-- Witness for C1 at concrete inputs: one enqueue onto the empty queue stays
within capacity, and an enqueue onto a 100-record queue fails and leaves it
unchanged. -/
theorem c1_queue_bounded_witness :
    (applyEnqueues [] [c1Args]).length ≤ MAX_QUEUE_SIZE
    ∧ enqueueArgs (List.replicate 100 c2QRec) c1Args
        = (false, List.replicate 100 c2QRec) := by
  have h := c1_queue_bounded [] [c1Args] (by decide)
  exact ⟨h.1, h.2 (List.replicate 100 c2QRec) c1Args (by simp [MAX_QUEUE_SIZE])⟩

-- ===========================================================================
-- Claim C8
-- ===========================================================================

/-- C8 counterexample: at hour 9 (the configured on-time threshold hour
ON_TIME_HOUR) the code returns "present", although the claim requires taps
at or after the threshold to be late; the clock reading is RTC-valid. -/
theorem c8_threshold_counterexample :
    getAttendanceStatus ⟨2025, 6, 2, 9, 0, 0⟩ = "present"
    ∧ ON_TIME_HOUR ≤ (9 : Nat)
    ∧ isRTCValid ⟨2025, 6, 2, 9, 0, 0⟩ = true := by
  refine ⟨rfl, by decide, by decide⟩

/-- C8 amended: the attendance status follows one half-open threshold policy,
but its boundary is LATE_HOUR (10), not ON_TIME_HOUR (9): hours strictly
below LATE_HOUR yield "present" and hours at or above LATE_HOUR yield
"late"; in particular a tap before the on-time hour is "present"
(Scenario A). -/
theorem c8_threshold_amended (t : DateTime) :
    getAttendanceStatus t = (if t.hour < LATE_HOUR then "present" else "late")
    ∧ (t.hour < ON_TIME_HOUR → getAttendanceStatus t = "present") := by
  constructor
  · by_cases h1 : t.hour < ON_TIME_HOUR
    · rw [getAttendanceStatus, if_pos h1,
        if_pos (by simp only [ON_TIME_HOUR] at h1; simp only [LATE_HOUR]; omega)]
    · by_cases h2 : LATE_HOUR ≤ t.hour
      · rw [getAttendanceStatus, if_neg h1, if_pos h2, if_neg (by omega)]
      · rw [getAttendanceStatus, if_neg h1, if_neg h2, if_pos (by omega)]
  · intro h
    rw [getAttendanceStatus, if_pos h]

/-- Witness for C8 at the concrete reading 8:00: the status is "present",
both by the half-open policy and by the before-threshold clause. -/
theorem c8_threshold_amended_witness :
    getAttendanceStatus goodTime
      = (if goodTime.hour < LATE_HOUR then "present" else "late")
    ∧ getAttendanceStatus goodTime = "present" :=
  ⟨(c8_threshold_amended goodTime).1,
   (c8_threshold_amended goodTime).2 (by decide)⟩

-- ===========================================================================
-- Claim C9
-- ===========================================================================

/-- C9: persisting the queue and reloading it yields a queue with the same
record count, the same field values in every record and the same relative
order — the round trip is the identity. -/
theorem c9_persist_roundtrip (q : List AttendanceRecord) :
    loadFromSPIFFS (saveToSPIFFS q) = q := by
  unfold loadFromSPIFFS saveToSPIFFS
  rw [List.map_map]
  have h : ∀ r : AttendanceRecord, loadRecord (saveRecord r) = r := fun r => rfl
  calc q.map (loadRecord ∘ saveRecord) = q.map id := List.map_congr_left fun r _ => h r
    _ = q := List.map_id q

-- ===========================================================================
-- Claim C4
-- ===========================================================================

/-- C4: confirmed correlation ids are consumed exactly once and remove at
most one record: removal by sync id deletes at most one record; a consumed
confirmation is no longer present on a second check; the idle confirmation
check removes at most one record; and once a pass has cleared the tracker, a
further confirmation pass is a no-op (no second removal, no duplicate
consumption). -/
theorem c4_confirmation_idempotent (q : List AttendanceRecord)
    (ops : Finset String) (id : String) (s : Sys) (now now2 : Nat) :
    q.length - 1 ≤ (dequeueBySyncId q id).2.length
    ∧ ((isSyncConfirmed ops id).1 = true →
        (isSyncConfirmed (isSyncConfirmed ops id).2 id).1 = false)
    ∧ s.queue.length - 1 ≤ (idleConfirmStep s now).queue.length
    ∧ ((idleConfirmStep s now).uploadTracker.active = false →
        idleConfirmStep (idleConfirmStep s now) now2 = idleConfirmStep s now) := by
  refine ⟨dequeueBySyncId_length q id, ?_, ?_, ?_⟩
  · intro h
    unfold isSyncConfirmed at h ⊢
    split at h
    · next hm =>
      rw [if_pos hm, if_neg (Finset.not_mem_erase id ops)]
    · simp at h
  · unfold idleConfirmStep
    repeat' split
    all_goals first
      | exact Nat.sub_le _ _
      | exact dequeueBySyncId_length _ _
  · intro h
    exact idleConfirmStep_inactive _ now2 h

/-- Witness for C4 at concrete inputs: a one-record queue with sync id "S1",
the confirmed set containing only "S1", and the idle state `c4S` tracking
"S1"; the confirmation is consumed, one record is removed, and the second
pass is a no-op. -/
theorem c4_confirmation_idempotent_witness :
    ([c6A2].length - 1 ≤ (dequeueBySyncId [c6A2] "S1").2.length)
    ∧ (isSyncConfirmed (isSyncConfirmed {"S1"} "S1").2 "S1").1 = false
    ∧ c4S.queue.length - 1 ≤ (idleConfirmStep c4S 0).queue.length
    ∧ idleConfirmStep (idleConfirmStep c4S 0) 1 = idleConfirmStep c4S 0 := by
  have h := c4_confirmation_idempotent [c6A2] {"S1"} "S1" c4S 0 1
  exact ⟨h.1, h.2.1 (by decide), h.2.2.1, h.2.2.2 (by decide)⟩

-- ===========================================================================
-- Claim C6
-- ===========================================================================

/-- C6 amended: when the tracked upload exceeds its timeout without
confirmation, the idle confirmation check clears the tracker and leaves the
queue completely unchanged: nothing is enqueued, and a queue-drain record
stays exactly where it was — it is NOT moved to the tail and its retry count
is not changed at timeout time (it was already incremented when the send was
started, via setSyncId). -/
theorem c6_timeout_amended (s : Sys) (now : Nat)
    (ha : s.uploadTracker.active = true)
    (hnc : s.uploadTracker.syncId ∉ s.confirmedOperations)
    (ht : 10000 < now - s.uploadTracker.startTime) :
    (idleConfirmStep s now).uploadTracker.active = false
    ∧ (idleConfirmStep s now).queue = s.queue := by
  unfold idleConfirmStep
  rw [if_pos ha,
    if_neg (by unfold isSyncConfirmed; rw [if_neg hnc]; simp),
    if_pos (by unfold UploadTracker.isTimeout; rw [ha]; simpa using ht)]
  exact ⟨rfl, rfl⟩

/-- Witness for C6 on the concrete reachable state `c6s3` (drain send of the
head record tracked as "S1") at a time past the 10 s timeout: the tracker is
cleared and the queue is untouched. -/
theorem c6_timeout_amended_witness :
    (idleConfirmStep c6s3 50011).uploadTracker.active = false
    ∧ (idleConfirmStep c6s3 50011).queue = c6s3.queue :=
  c6_timeout_amended c6s3 50011 (by decide) (by decide) (by decide)

-- ===========================================================================
-- Claim C7
-- ===========================================================================

/-- C7 amended: the tap guard is updated only by a successful, clock-valid,
non-suppressed read, which records the identifier and the read time; a
failed card read (empty identifier) returns to idle leaving the guard — and
hence the cooldown slot — untouched. -/
theorem c7_guard_amended (s : Sys) (e : Env) :
    (e.readUid = "" →
      (handleProcessCard s e).lastTapUID = s.lastTapUID
      ∧ (handleProcessCard s e).lastTapTime = s.lastTapTime
      ∧ (handleProcessCard s e).currentState = STATE_IDLE)
    ∧ (e.readUid ≠ "" → isRTCValid e.time = true →
       (isDuplicateTap s.lastTapUID s.lastTapTime s.tapInProgress
          e.readUid e.now).1 = false →
       (handleProcessCard s e).lastTapUID = e.readUid
       ∧ (handleProcessCard s e).lastTapTime = e.now) := by
  constructor
  · intro h
    unfold handleProcessCard
    rw [if_pos h]
    refine ⟨?_, ?_, ?_⟩
    · rw [transitionTo_lastTapUID]
    · rw [transitionTo_lastTapTime]
    · rw [transitionTo_currentState]
  · intro h1 h2 h3
    have hd := isDuplicateTap_false _ _ _ _ _ h3
    unfold handleProcessCard
    rw [if_neg h1, if_neg (by rw [h2]; simp), if_neg (by rw [h3]; simp)]
    constructor
    · rw [processCardRoute_lastTapUID]
      show (isDuplicateTap s.lastTapUID s.lastTapTime s.tapInProgress
              e.readUid e.now).2.1 = e.readUid
      rw [hd]
    · rw [processCardRoute_lastTapTime]
      show (isDuplicateTap s.lastTapUID s.lastTapTime s.tapInProgress
              e.readUid e.now).2.2 = e.now
      rw [hd]

/-- Witness for C7 on the concrete reachable card-processing state `c7s7`
(guard holds "AB12" at t=121): a failed read leaves the guard untouched and
returns to idle, while a successful fresh read records "EF56" at t=221. -/
theorem c7_guard_amended_witness :
    ((handleProcessCard c7s7 c7e8).lastTapUID = c7s7.lastTapUID
      ∧ (handleProcessCard c7s7 c7e8).lastTapTime = c7s7.lastTapTime
      ∧ (handleProcessCard c7s7 c7e8).currentState = STATE_IDLE)
    ∧ ((handleProcessCard c7s7 cwReadEnv).lastTapUID = cwReadEnv.readUid
      ∧ (handleProcessCard c7s7 cwReadEnv).lastTapTime = cwReadEnv.now) :=
  ⟨(c7_guard_amended c7s7 c7e8).1 (by decide),
   (c7_guard_amended c7s7 cwReadEnv).2 (by decide) (by decide) (by decide)⟩

-- ===========================================================================
-- Claim C10
-- ===========================================================================

/-- C10: while the upload tracker remains in flight through the idle
confirmation check (no confirmation for its id has arrived and its timeout
has not elapsed), an idle iteration ends still in the Idle state: no
transition to ProcessCard happens for any detected card of any identifier,
no transition to SyncQueue happens, the tracker and the queue are untouched,
and the card-detect latch stays set for later processing. -/
theorem c10_defer_while_active (s : Sys) (e : Env)
    (h : s.currentState = STATE_IDLE)
    (ha : s.uploadTracker.active = true)
    (hnc : s.uploadTracker.syncId ∉
      deliverConfirmations s.confirmedOperations e.newConfirmations)
    (hnt : e.now - s.uploadTracker.startTime ≤ 10000) :
    (loopStep s e).currentState = STATE_IDLE
    ∧ (loopStep s e).uploadTracker = s.uploadTracker
    ∧ (loopStep s e).queue = s.queue
    ∧ (loopStep s e).cardDetected = (s.cardDetected || e.cardArrives) := by
  have hs1 : ({ s with cardDetected := s.cardDetected || e.cardArrives }
      : Sys).currentState = STATE_IDLE := h
  unfold loopStep
  rw [checkStateTimeout_idle _ _ hs1, runState_idle _ _ hs1]
  unfold handleIdle
  have hbg := idleBackground_fields
    { s with cardDetected := s.cardDetected || e.cardArrives } e
  have htr : (idleBackground
      { s with cardDetected := s.cardDetected || e.cardArrives } e).uploadTracker
      = s.uploadTracker := hbg.2.1
  have hconf : idleConfirmStep (idleBackground
      { s with cardDetected := s.cardDetected || e.cardArrives } e) e.now
      = idleBackground
        { s with cardDetected := s.cardDetected || e.cardArrives } e := by
    apply idleConfirmStep_still_active
    · rw [htr]; exact ha
    · rw [htr, idleBackground_confirmed]; exact hnc
    · rw [htr]; exact hnt
  rw [hconf, idleSyncCard_tracker_active _ _ (by rw [htr]; exact ha)]
  refine ⟨?_, ?_, ?_, ?_⟩
  · show (idleBackground
        { s with cardDetected := s.cardDetected || e.cardArrives } e).currentState
        = STATE_IDLE
    rw [hbg.1]
    exact hs1
  · exact htr
  · show (idleBackground
        { s with cardDetected := s.cardDetected || e.cardArrives } e).queue
        = s.queue
    rw [hbg.2.2.1]
  · show (idleBackground
        { s with cardDetected := s.cardDetected || e.cardArrives } e).cardDetected
        = (s.cardDetected || e.cardArrives)
    rw [hbg.2.2.2.1]

/-- Witness for C10 on the concrete reachable state `c3s5` (idle, live
upload "S1" in flight) with a second card arriving at t=5000: the iteration
stays in Idle, the tracker, queue and pending card latch are preserved. -/
theorem c10_defer_while_active_witness :
    (loopStep c3s5 cwIdleEnv).currentState = STATE_IDLE
    ∧ (loopStep c3s5 cwIdleEnv).uploadTracker = c3s5.uploadTracker
    ∧ (loopStep c3s5 cwIdleEnv).queue = c3s5.queue
    ∧ (loopStep c3s5 cwIdleEnv).cardDetected
        = (c3s5.cardDetected || cwIdleEnv.cardArrives) :=
  c10_defer_while_active c3s5 cwIdleEnv (by decide) (by decide) (by decide)
    (by decide)

-- ===========================================================================
-- Claim C2
-- ===========================================================================

/-- C2 counterexample: a reachable execution (boot with a full persisted
queue, then a live registered tap processed online whose upload hangs past
the watchdog timeout) in which the watchdog does force Idle but the hung
live record ("AB12") is NOT enqueued — the enqueue fails on the full queue
and the attendance event is lost, contrary to the claim. -/
theorem c2_watchdog_counterexample :
    Reachable c2s5
    ∧ c2s4.currentState = STATE_UPLOAD_DATA
    ∧ c2s4.ctx.fromQueue = false
    ∧ c2s4.ctx.isRegistered = true
    ∧ c2s4.ctx.cardUID = "AB12"
    ∧ STATE_TIMEOUT_MS < c2e5.now - c2s4.ctx.stateEntryTime
    ∧ c2s5 = loopStep c2s4 c2e5
    ∧ c2s5.currentState = STATE_IDLE
    ∧ c2s5.queue = List.replicate 100 c2QRec
    ∧ c2QRec.uid ≠ "AB12" := by
  refine ⟨?_, by decide, by decide, by decide, by decide, by decide, rfl,
    by decide, by decide, by decide⟩
  exact Reachable.step c2e5 (Reachable.step c2e4 (Reachable.step c2e3
    (Reachable.step c2e2 (Reachable.step c2e1 Reachable.init))))

/-- C2 amended: whenever more than the watchdog timeout has elapsed since
entering a non-Idle, non-initialization state, the watchdog check forces a
transition to Idle and deactivates the tracker; and if the hung state was an
upload attempt for a live (non-queue) registered record AND the queue is not
full, that record is enqueued before the forced transition (at capacity the
enqueue fails and the record is dropped). -/
theorem c2_watchdog_amended (s : Sys) (now : Nat)
    (h1 : s.currentState ≠ STATE_IDLE) (h2 : s.currentState ≠ STATE_BOOT)
    (h3 : STATE_TIMEOUT_MS < now - s.ctx.stateEntryTime) :
    (checkStateTimeout s now).currentState = STATE_IDLE
    ∧ (checkStateTimeout s now).uploadTracker.active = false
    ∧ ((s.currentState = STATE_UPLOAD_DATA ∨ s.currentState = STATE_SYNC_QUEUE) →
        s.ctx.fromQueue = false → s.ctx.isRegistered = true →
        s.queue.length < MAX_QUEUE_SIZE →
        (checkStateTimeout s now).queue
          = s.queue ++ [⟨s.ctx.cardUID, s.ctx.userName, s.ctx.timestamp,
                         s.ctx.attendanceStatus, s.ctx.registrationStatus,
                         "", 0, now⟩]) := by
  unfold checkStateTimeout
  rw [if_neg (by simp [h1, h2]), if_pos h3]
  refine ⟨?_, ?_, ?_⟩
  · split <;> rw [transitionTo_currentState]
  · split <;> (rw [transitionTo_uploadTracker]; rfl)
  · intro hu hf hr hlen
    rw [if_pos ⟨hu, hf, hr⟩, transitionTo_queue]
    show (enqueue s.queue s.ctx.cardUID s.ctx.userName s.ctx.timestamp
            s.ctx.attendanceStatus s.ctx.registrationStatus now).2 = _
    unfold enqueue
    rw [if_neg (Nat.not_le.mpr hlen)]

/-- Witness for C2 on the concrete hung upload state `cwUpload` (entered at
t=0, watchdog checked at t=20000, queue empty): the watchdog forces Idle,
clears the tracker, and enqueues the live record. -/
theorem c2_watchdog_amended_witness :
    (checkStateTimeout cwUpload 20000).currentState = STATE_IDLE
    ∧ (checkStateTimeout cwUpload 20000).uploadTracker.active = false
    ∧ (checkStateTimeout cwUpload 20000).queue
        = [⟨"AB12", "Alice", "T", "present", "registered", "", 0, 20000⟩] := by
  have h := c2_watchdog_amended cwUpload 20000 (by decide) (by decide) (by decide)
  exact ⟨h.1, h.2.1, h.2.2 (Or.inl rfl) rfl rfl (by decide)⟩

-- ===========================================================================
-- Claim C3
-- ===========================================================================

/-- C3 counterexample: a reachable execution (live upload "S1" in flight,
empty queue) in which a second attendance event arrives — the card-detect
line reports a card while the tracker is active — and the iteration neither
queues anything (the queue stays empty) nor starts any upload (the tracker
is unchanged): the event is deferred, not queued as the claim states. -/
theorem c3_serialized_counterexample :
    Reachable c3s6
    ∧ c3s5.currentState = STATE_IDLE
    ∧ c3s5.uploadTracker.active = true
    ∧ c3s5.queue = []
    ∧ c3e6.cardArrives = true
    ∧ c3s6 = loopStep c3s5 c3e6
    ∧ c3s6.currentState = STATE_IDLE
    ∧ c3s6.queue = []
    ∧ c3s6.uploadTracker = c3s5.uploadTracker
    ∧ c3s6.cardDetected = true := by
  refine ⟨?_, by decide, by decide, by decide, by decide, rfl, by decide,
    by decide, by decide, by decide⟩
  exact Reachable.step c3e6 (Reachable.step c3e5 (Reachable.step c3e4
    (Reachable.step c3e3 (Reachable.step c3e2
      (Reachable.step c3e1 Reachable.init)))))

/-- C3 amended: at most one upload is tracked in flight at any time — from
any reachable state in which the tracker is active, one loop iteration
either leaves the tracker exactly as it is or deactivates it; it is never
restarted (no second concurrent upload is ever started); a second attendance
event arriving meanwhile is deferred, not queued. -/
theorem c3_serialized_amended (s : Sys) (e : Env) (hr : Reachable s)
    (ha : s.uploadTracker.active = true) :
    (loopStep s e).uploadTracker = s.uploadTracker
    ∨ (loopStep s e).uploadTracker.active = false := by
  have hinv := reachable_trackerInv s hr
  unfold loopStep
  rcases checkStateTimeout_cases
      { s with cardDetected := s.cardDetected || e.cardArrives } e.now with
    hc | ⟨hst, htr⟩
  · rw [hc]
    unfold runState
    split
    · left
      rw [handleBoot_tracker]
    · rcases handleIdle_tracker
        { s with cardDetected := s.cardDetected || e.cardArrives } e with h | h
      · left; rw [h]
      · right; exact h
    · next heq => exact absurd (hinv (Or.inl heq)) (by simp [ha])
    · next heq => exact absurd (hinv (Or.inr (Or.inl heq))) (by simp [ha])
    · next heq => exact absurd (hinv (Or.inr (Or.inr (Or.inl heq)))) (by simp [ha])
    · next heq => exact absurd (hinv (Or.inr (Or.inr (Or.inr heq)))) (by simp [ha])
  · right
    rw [runState_idle _ _ hst]
    rcases handleIdle_tracker (checkStateTimeout
        { s with cardDetected := s.cardDetected || e.cardArrives } e.now) e with
      h | h
    · rw [h]; exact htr
    · exact h

/-- Witness for C3 on the concrete reachable state `c3s5` with upload "S1"
in flight: the next iteration leaves the tracker as it is or inactive. -/
theorem c3_serialized_amended_witness :
    (loopStep c3s5 c3e6).uploadTracker = c3s5.uploadTracker
    ∨ (loopStep c3s5 c3e6).uploadTracker.active = false :=
  c3_serialized_amended c3s5 c3e6
    (Reachable.step c3e5 (Reachable.step c3e4 (Reachable.step c3e3
      (Reachable.step c3e2 (Reachable.step c3e1 Reachable.init)))))
    (by decide)

-- ===========================================================================
-- Claim C5
-- ===========================================================================

/-- C5 counterexample: a reachable execution in which the head record has
retryCount 6 (loaded from storage), every drain condition holds — online,
tracker idle, sync interval elapsed — and yet the drain pass does NOT retry
it: the machine stays in Idle instead of moving to the queue-sync state, so
a record past the retry bound is never retried (though never discarded). -/
theorem c5_retry_counterexample :
    Reachable c5s2
    ∧ c5s1.currentState = STATE_IDLE
    ∧ c5s1.queue = [c5r6]
    ∧ c5r6.retryCount = 6
    ∧ c5s1.isOnline = true
    ∧ c5s1.uploadTracker.active = false
    ∧ c5s1.currentMode ≠ MODE_FORCE_OFFLINE
    ∧ SYNC_INTERVAL_MS < c5e2.now - c5s1.lastQueueSyncAttempt
    ∧ c5s2 = loopStep c5s1 c5e2
    ∧ c5s2.currentState = STATE_IDLE
    ∧ c5s2.currentState ≠ STATE_SYNC_QUEUE
    ∧ c5s2.queue = [c5r6] := by
  refine ⟨?_, by decide, by decide, by decide, by decide, by decide,
    by decide, by decide, rfl, by decide, by decide, by decide⟩
  exact Reachable.step c5e2 (Reachable.step c5e1 Reachable.init)

/-- C5 amended: when a queue-drain send attempt fails immediately, the head
record's retry counter is incremented and the record is moved to the tail,
with no record discarded; but a record whose retry counter exceeds 5 is NOT
retried on later drain passes — the periodic drain only enters the
queue-sync state when the head's retryCount is at most 5, so such a record
stays in the queue unretried (it is still never discarded). -/
theorem c5_retry_amended (s s2 : Sys) (e e2 : Env) (r : AttendanceRecord)
    (rest : List AttendanceRecord) :
    (s.queue = r :: rest → s.isOnline = true → e.firebaseReady = true →
      e.sendSyncId = "" →
      (handleSyncQueue s e).queue
          = rest ++ [{ r with retryCount := r.retryCount + 1 }]
      ∧ (handleSyncQueue s e).queue.length = s.queue.length
      ∧ (handleSyncQueue s e).currentState = STATE_IDLE)
    ∧ (s2.currentState = STATE_IDLE → s2.uploadTracker.active = false →
       s2.queue.head? = some r → 5 < r.retryCount →
       (loopStep s2 e2).queue = s2.queue
       ∧ (loopStep s2 e2).currentState ≠ STATE_SYNC_QUEUE) := by
  constructor
  · intro hq ho hf hs
    unfold handleSyncQueue
    rw [if_neg (by simp [ho, hf]), if_neg (by simp [hs])]
    refine ⟨?_, ?_, transitionTo_currentState _ _ _⟩
    · rw [transitionTo_queue]
      show moveToBack (match s.queue with
        | [] => []
        | r :: rest => { r with retryCount := r.retryCount + 1 } :: rest) = _
      rw [hq]
      simp [moveToBack_cons]
    · rw [transitionTo_queue]
      show (moveToBack (match s.queue with
        | [] => []
        | r :: rest => { r with retryCount := r.retryCount + 1 } :: rest)).length
        = s.queue.length
      rw [hq]
      simp [moveToBack_cons]
  · intro hst htr hhead hretry
    have hs1 : ({ s2 with cardDetected := s2.cardDetected || e2.cardArrives }
        : Sys).currentState = STATE_IDLE := hst
    unfold loopStep
    rw [checkStateTimeout_idle _ _ hs1, runState_idle _ _ hs1]
    unfold handleIdle
    have hbg := idleBackground_fields
      { s2 with cardDetected := s2.cardDetected || e2.cardArrives } e2
    have hconf : idleConfirmStep (idleBackground
        { s2 with cardDetected := s2.cardDetected || e2.cardArrives } e2) e2.now
        = idleBackground
          { s2 with cardDetected := s2.cardDetected || e2.cardArrives } e2 := by
      apply idleConfirmStep_inactive
      rw [hbg.2.1]
      exact htr
    rw [hconf]
    have hhigh := idleSyncCard_highRetry (idleBackground
        { s2 with cardDetected := s2.cardDetected || e2.cardArrives } e2) e2 r
      (by rw [hbg.2.2.1]; exact hhead) hretry
    constructor
    · rw [hhigh.1, hbg.2.2.1]
    · rcases hhigh.2 with h | h
      · rw [h, hbg.1, hs1]
        simp
      · rw [h]
        simp

/-- Witness for C5: on the concrete queue-sync state `cwSync` (queue
[c6A, c6B]) whose send is rejected, the head is bumped and rotated to the
tail with the length preserved; and on the concrete reachable idle state
`c5s1` whose head has retryCount 6, the drain pass leaves the queue
unchanged and does not enter the queue-sync state. -/
theorem c5_retry_amended_witness :
    ((handleSyncQueue cwSync cwSyncEnv).queue
        = [c6B] ++ [{ c6A with retryCount := c6A.retryCount + 1 }]
      ∧ (handleSyncQueue cwSync cwSyncEnv).queue.length = cwSync.queue.length
      ∧ (handleSyncQueue cwSync cwSyncEnv).currentState = STATE_IDLE)
    ∧ ((loopStep c5s1 c5e2).queue = c5s1.queue
      ∧ (loopStep c5s1 c5e2).currentState ≠ STATE_SYNC_QUEUE) :=
  ⟨(c5_retry_amended cwSync c5s1 cwSyncEnv c5e2 c6A [c6B]).1
      (by decide) (by decide) (by decide) (by decide),
   (c5_retry_amended cwSync c5s1 cwSyncEnv c5e2 c5r6 []).2
      (by decide) (by decide) (by decide) (by decide)⟩

-- ===========================================================================
-- Claims C6 and C7: counterexamples
-- ===========================================================================

/-- C6 counterexample: a reachable execution in which the drain send of the
head record is tracked as "S1" and then times out unconfirmed; the tracker
is cleared but the record stays at the HEAD of the queue — it is not moved
to the tail as the claim states, and its retry count is unchanged by the
timeout (it was incremented at send time). -/
theorem c6_timeout_counterexample :
    Reachable c6s4
    ∧ c6s3.currentState = STATE_IDLE
    ∧ c6s3.uploadTracker = ⟨"S1", "A1", 40010, true⟩
    ∧ c6s3.queue = [c6A2, c6B]
    ∧ c6A2.syncId = "S1"
    ∧ 10000 < c6e4.now - 40010
    ∧ c6e4.newConfirmations = []
    ∧ c6s4 = loopStep c6s3 c6e4
    ∧ c6s4.uploadTracker.active = false
    ∧ c6s4.queue = [c6A2, c6B]
    ∧ c6s4.queue ≠ [c6B, c6A2] := by
  refine ⟨?_, by decide, by decide, by decide, by decide, by decide,
    by decide, rfl, by decide, by decide, by decide⟩
  exact Reachable.step c6e4 (Reachable.step c6e3 (Reachable.step c6e2
    (Reachable.step c6e1 Reachable.init)))

/-- C7 counterexample: a reachable execution in which the guard holds
("AB12", t=121) and a later card read FAILS at t=221: the machine returns to
idle with the guard completely untouched — the failed read does not claim
the cooldown slot, contrary to the claim. -/
theorem c7_guard_counterexample :
    Reachable c7s8
    ∧ c7s7.currentState = STATE_PROCESS_CARD
    ∧ c7e8.readUid = ""
    ∧ c7e8.now = 221
    ∧ c7s7.lastTapUID = "AB12"
    ∧ c7s7.lastTapTime = 121
    ∧ c7s8 = loopStep c7s7 c7e8
    ∧ c7s8.currentState = STATE_IDLE
    ∧ c7s8.lastTapUID = "AB12"
    ∧ c7s8.lastTapTime = 121
    ∧ (121 : Nat) ≠ 221 := by
  refine ⟨?_, by decide, by decide, by decide, by decide, by decide, rfl,
    by decide, by decide, by decide, by decide⟩
  exact Reachable.step c7e8 (Reachable.step c7e7 (Reachable.step c7e6
    (Reachable.step c7e5 (Reachable.step c7e4 (Reachable.step c7e3
      (Reachable.step c7e2 (Reachable.step c7e1 Reachable.init)))))))

end TapTrack
